import Mathlib

/-!
Verification development for the kishancall background embedding /
CSV-ingestion service.

The definitions below are a shallow embedding of the JavaScript class
`BackgroundEmbeddingService` (and of `cosineSimilarity` from
`semantic-search.js`).  Mutable `this.*` fields become a `ServiceState`
record threaded through each method; a method that can `throw` returns its
updated state together with an `Except String` result (a throw happens
before any mutation in the guarded methods, which the theorems make
explicit).  Wall-clock timestamps, console formatting and the MongoDB
driver are outside the model: the store is a list of documents, the
embedding backend is an oracle, and sleeps are recorded as ghost trace
data (their requested durations in milliseconds).
-/

namespace KishanCall

/-- The `embedding` field of a Mongo document: it can be missing entirely
(`$exists: false`), explicitly `null`, or an array of numbers.  Vector
entries are modelled as rationals. -/
inductive EmbField where
  | absent : EmbField
  | nullv : EmbField
  | arr : List ℚ → EmbField
deriving DecidableEq, Repr

/-- A document as selected by the batch query
(`_id StateName DistrictName Category QueryType QueryText KccAns embedding`). -/
structure Document where
  id : Nat
  stateName : String := ""
  districtName : String := ""
  category : String := ""
  queryType : String := ""
  queryText : String := ""
  kccAns : String := ""
  embedding : EmbField := .absent
deriving DecidableEq, Repr

/-- The Mongo filter used both for the `totalDocuments` snapshot and for
every batch fetch: when `skipExisting` it is
`$or: [embedding $exists false, embedding $size 0, embedding null]`,
otherwise the empty filter matching everything. -/
def needsEmbeddingFilter (skipExisting : Bool) (d : Document) : Bool :=
  if skipExisting then
    match d.embedding with
    | .absent => true
    | .nullv => true
    | .arr v => v.length = 0
  else
    true

/-- The JavaScript truthiness test used by the in-loop safety double check:
`doc.embedding && Array.isArray(doc.embedding) && doc.embedding.length > 0`.
A missing or null field is falsy; an array passes only when non-empty. -/
def hasNonEmptyEmbedding (d : Document) : Bool :=
  match d.embedding with
  | .absent => false
  | .nullv => false
  | .arr v => decide (0 < v.length)

/-- Embedding input text built by `createEmbeddingText`. -/
def createEmbeddingText (d : Document) : String :=
  "Category: " ++ d.category ++ ". QueryType: " ++ d.queryType ++
    ". Query: " ++ d.queryText ++ ". Answer: " ++ d.kccAns

/-- Outcome of the per-document retry loop. -/
inductive DocOutcome where
  | skipped : DocOutcome
  | succeeded : List ℚ → DocOutcome
  | failed : DocOutcome
deriving DecidableEq, Repr

/-- Whether the outcome is the skip branch. -/
def DocOutcome.isSkipped : DocOutcome → Bool
  | .skipped => true
  | _ => false

/-- Ghost trace of one document passing through the retry loop: how many
times `generateEmbedding` was called, which backoff sleeps were requested
(in ms, in order), which attempt numbers were logged as warnings, how many
error-level log entries were produced, the counter increments the loop
performed, and the single `findByIdAndUpdate` write if one happened. -/
structure DocTrace where
  tries : Nat
  sleeps : List Nat
  warnAttempts : List Nat
  errorLogs : Nat
  dProcessed : Nat
  dSuccess : Nat
  dFailed : Nat
  dError : Nat
  write : Option (List ℚ)
  outcome : DocOutcome
deriving DecidableEq, Repr

/-- The `while (attempts <= retryAttempts && !success)` loop of
`processBatch`, for one document, in the sequential model where
`isStopping` stays false for the duration of the batch.  `attempts` is the
number of failed attempts so far; the fuel argument keeps the recursion
structural and equals `retryAttempts + 1 - attempts` at every call (the
fuel-0 branch is unreachable under that discipline).  The oracle `embed`
maps the 0-based try index to the result of
`generateEmbedding(createEmbeddingText doc)` followed by the store write. -/
def docLoop (retryAttempts : Nat) (skipExisting : Bool) (d : Document)
    (embed : Nat → Except String (List ℚ)) : Nat → Nat → DocTrace
  | 0, _ =>
    { tries := 0, sleeps := [], warnAttempts := [], errorLogs := 0,
      dProcessed := 0, dSuccess := 0, dFailed := 0, dError := 0,
      write := none, outcome := .failed }
  | fuel + 1, attempts =>
    if skipExisting && hasNonEmptyEmbedding d then
      -- skip branch: `this.processedDocuments++; success = true; continue;`
      { tries := 0, sleeps := [], warnAttempts := [], errorLogs := 0,
        dProcessed := 1, dSuccess := 0, dFailed := 0, dError := 0,
        write := none, outcome := .skipped }
    else
      match embed attempts with
      | .ok v =>
        -- `findByIdAndUpdate`, then processed++/successCount++
        { tries := 1, sleeps := [], warnAttempts := [], errorLogs := 0,
          dProcessed := 1, dSuccess := 1, dFailed := 0, dError := 0,
          write := some v, outcome := .succeeded v }
      | .error _ =>
        let n := attempts + 1
        if retryAttempts < n then
          -- attempts exhausted: failed++/errorCount++/processed++ and error log
          { tries := 1, sleeps := [], warnAttempts := [n], errorLogs := 1,
            dProcessed := 1, dSuccess := 0, dFailed := 1, dError := 1,
            write := none, outcome := .failed }
        else
          let rest := docLoop retryAttempts skipExisting d embed fuel n
          { tries := rest.tries + 1,
            sleeps := 1000 * n :: rest.sleeps,
            warnAttempts := n :: rest.warnAttempts,
            errorLogs := rest.errorLogs,
            dProcessed := rest.dProcessed,
            dSuccess := rest.dSuccess,
            dFailed := rest.dFailed,
            dError := rest.dError,
            write := rest.write,
            outcome := rest.outcome }

/-- Per-document retry procedure: the loop entered at `attempts = 0` with
fuel `retryAttempts + 1`. -/
def processDocument (retryAttempts : Nat) (skipExisting : Bool)
    (embed : Nat → Except String (List ℚ)) (d : Document) : DocTrace :=
  docLoop retryAttempts skipExisting d embed (retryAttempts + 1) 0

/-- The run counters mutated by `processBatch`. -/
structure Counters where
  processedDocuments : Nat
  successCount : Nat
  failedDocuments : Nat
  errorCount : Nat
deriving DecidableEq, Repr

/-- Apply the counter increments recorded in the trace of one document. -/
def applyTrace (c : Counters) (t : DocTrace) : Counters :=
  { processedDocuments := c.processedDocuments + t.dProcessed,
    successCount := c.successCount + t.dSuccess,
    failedDocuments := c.failedDocuments + t.dFailed,
    errorCount := c.errorCount + t.dError }

/-- `processBatch(documents)`: the `for (const doc of documents)` loop,
threading the counters and collecting the trace of each document in order.  The
oracle is indexed by document id and try number. -/
def processBatch (retryAttempts : Nat) (skipExisting : Bool)
    (embed : Nat → Nat → Except String (List ℚ)) :
    List Document → Counters → Counters × List DocTrace
  | [], c => (c, [])
  | d :: ds, c =>
    let t := processDocument retryAttempts skipExisting (embed d.id) d
    let res := processBatch retryAttempts skipExisting embed ds (applyTrace c t)
    (res.1, t :: res.2)

/-- One batch fetch:
`Document.find(filter).limit(batchSize).skip(skip)` over a store modelled
as a list in stable order. -/
def fetchBatch (store : List Document) (skipExisting : Bool)
    (batchSize skip : Nat) : List Document :=
  ((store.filter (needsEmbeddingFilter skipExisting)).drop skip).take batchSize

/-- Number of documents in a store matching the needs-embedding filter
(`Document.countDocuments(filter)`). -/
def countNeedingEmbedding (store : List Document) (skipExisting : Bool) : Nat :=
  (store.filter (needsEmbeddingFilter skipExisting)).length

/-- One entry of the bounded log ring.  The wall-clock timestamp and the
free-form `data` payload are outside the model; `batchNumber` and
`processedCount` are captured from the state at the time of the call, as
in `addLog`. -/
structure LogEntry where
  level : String
  message : String
  batchNumber : Nat
  processedCount : Nat
deriving DecidableEq, Repr

/-- Resolved per-task options, as stored on a queued CSV task. -/
structure CsvOptions where
  clearExisting : Bool := false
  generateEmbeddings : Bool := true
  batchSize : Nat := 1000
deriving DecidableEq, Repr

/-- The caller-supplied options object for `addCsvToQueue`: each key may be
present or absent. -/
structure CsvOptionsIn where
  clearExisting : Option Bool := none
  generateEmbeddings : Option Bool := none
  batchSize : Option Nat := none
deriving DecidableEq, Repr

/-- One queued CSV-import task.  The three wall-clock timestamps
(`createdAt`, `startedAt`, `completedAt`) are outside the model. -/
structure CsvTask where
  id : Nat
  filePath : String := ""
  fileName : String := ""
  status : String := "queued"
  totalRecords : Nat := 0
  processedRecords : Nat := 0
  insertedRecords : Nat := 0
  failedRecords : Nat := 0
  progress : ℚ := 0
  error : Option String := none
  options : CsvOptions := {}
deriving DecidableEq, Repr

/-- A cleaned CSV row as produced by the `on("data")` handler (all text
fields trimmed, `embedding` initialised empty).  The parsed date is
outside the model. -/
structure CsvRecord where
  stateName : String := ""
  districtName : String := ""
  blockName : String := ""
  season : String := ""
  sector : String := ""
  category : String := ""
  crop : String := ""
  queryType : String := ""
  queryText : String := ""
  kccAns : String := ""
  year : Option Int := none
  month : Option Int := none
  embedding : List ℚ := []
deriving DecidableEq, Repr

/-- All mutable `this.*` fields of `BackgroundEmbeddingService` that the
claims touch, with the constructor defaults.  Numeric configuration values
are JavaScript numbers, modelled as `Int`; timestamps are `Option Nat`
milliseconds supplied by the caller where a method reads the clock. -/
structure ServiceState where
  isRunning : Bool := false
  isPaused : Bool := false
  isStopping : Bool := false
  currentBatch : Nat := 0
  totalDocuments : Nat := 0
  processedDocuments : Nat := 0
  failedDocuments : Nat := 0
  startTime : Option Nat := none
  pauseTime : Option Nat := none
  totalPauseDuration : Nat := 0
  batchSize : Int := 50
  delayBetweenBatches : Int := 100
  retryAttempts : Int := 3
  logs : List LogEntry := []
  maxLogEntries : Nat := 1000
  lastProcessedId : Option Nat := none
  averageProcessingTime : ℚ := 0
  processingTimes : List ℚ := []
  currentOperation : Option String := none
  errorCount : Nat := 0
  successCount : Nat := 0
  priority : String := "normal"
  concurrentWorkers : Int := 1
  activeWorkers : Int := 0
  skipExisting : Bool := true
  csvQueue : List CsvTask := []
  csvProcessingActive : Bool := false
  currentCsvTask : Option CsvTask := none
  csvTaskId : Nat := 0
deriving DecidableEq, Repr

/-- The log entry `addLog` would append in state `s`. -/
def mkLogEntry (s : ServiceState) (level message : String) : LogEntry :=
  { level := level, message := message,
    batchNumber := s.currentBatch, processedCount := s.processedDocuments }

/-- `addLog(level, message)`: push the entry, then keep only the last
`maxLogEntries` entries (`logs.slice(-maxLogEntries)`). -/
def addLog (s : ServiceState) (level message : String) : ServiceState :=
  let logs := s.logs ++ [mkLogEntry s level message]
  { s with logs :=
      if s.maxLogEntries < logs.length then
        logs.drop (logs.length - s.maxLogEntries)
      else logs }

/-- `pause()`: throws unless the run is running and not already paused;
otherwise records the pause time and flips `isPaused`.  The source returns
`this.getStatus()`; the model returns the updated state itself. -/
def pause (now : Nat) (s : ServiceState) : ServiceState × Except String Unit :=
  if !s.isRunning || s.isPaused then
    (s, .error "Cannot pause: process is not running or already paused")
  else
    let s1 := { s with isPaused := true, pauseTime := some now,
                       currentOperation := some "paused" }
    (addLog s1 "warning" "Embedding generation paused", .ok ())

/-- The caller-supplied options object for `configure`: each valid key may
be present or absent, and the object may additionally carry unknown keys
(which the source warns about and ignores). -/
structure ConfigureOptions where
  batchSize : Option Int := none
  delayBetweenBatches : Option Int := none
  retryAttempts : Option Int := none
  priority : Option String := none
  concurrentWorkers : Option Int := none
  skipExisting : Option Bool := none
  unknownKeys : List String := []
deriving DecidableEq, Repr

/-- Whether the options object has no keys (`Object.keys(options).length
=== 0`). -/
def ConfigureOptions.isEmpty (o : ConfigureOptions) : Bool :=
  o.batchSize.isNone && o.delayBetweenBatches.isNone && o.retryAttempts.isNone
    && o.priority.isNone && o.concurrentWorkers.isNone && o.skipExisting.isNone
    && o.unknownKeys.isEmpty

/-- Append one log entry both to the bounded ring in the state and to the
emitted-entry list (the source also prints every entry to the console, so
emission is observable even when the ring later evicts the entry). -/
def logBoth (p : ServiceState × List LogEntry) (level msg : String) :
    ServiceState × List LogEntry :=
  (addLog p.1 level msg, p.2 ++ [mkLogEntry p.1 level msg])

/-- Assignment of the `batchSize` key when present: record the old value
in the message, set the field, log at info level. -/
def applyBatchSizeOpt (v? : Option Int) (p : ServiceState × List LogEntry) :
    ServiceState × List LogEntry :=
  match v? with
  | some v =>
    let msg := "Configuration updated: batchSize changed from " ++
      toString p.1.batchSize ++ " to " ++ toString v
    logBoth ({ p.1 with batchSize := v }, p.2) "info" msg
  | none => p

/-- Assignment of the `delayBetweenBatches` key when present. -/
def applyDelayOpt (v? : Option Int) (p : ServiceState × List LogEntry) :
    ServiceState × List LogEntry :=
  match v? with
  | some v =>
    let msg := "Configuration updated: delayBetweenBatches changed from " ++
      toString p.1.delayBetweenBatches ++ " to " ++ toString v
    logBoth ({ p.1 with delayBetweenBatches := v }, p.2) "info" msg
  | none => p

/-- Assignment of the `retryAttempts` key when present. -/
def applyRetryOpt (v? : Option Int) (p : ServiceState × List LogEntry) :
    ServiceState × List LogEntry :=
  match v? with
  | some v =>
    let msg := "Configuration updated: retryAttempts changed from " ++
      toString p.1.retryAttempts ++ " to " ++ toString v
    logBoth ({ p.1 with retryAttempts := v }, p.2) "info" msg
  | none => p

/-- Assignment of the `priority` key when present. -/
def applyPriorityOpt (v? : Option String) (p : ServiceState × List LogEntry) :
    ServiceState × List LogEntry :=
  match v? with
  | some v =>
    let msg := "Configuration updated: priority changed from " ++
      p.1.priority ++ " to " ++ v
    logBoth ({ p.1 with priority := v }, p.2) "info" msg
  | none => p

/-- Assignment of the `concurrentWorkers` key when present. -/
def applyWorkersOpt (v? : Option Int) (p : ServiceState × List LogEntry) :
    ServiceState × List LogEntry :=
  match v? with
  | some v =>
    let msg := "Configuration updated: concurrentWorkers changed from " ++
      toString p.1.concurrentWorkers ++ " to " ++ toString v
    logBoth ({ p.1 with concurrentWorkers := v }, p.2) "info" msg
  | none => p

/-- Assignment of the `skipExisting` key when present. -/
def applySkipExistingOpt (v? : Option Bool) (p : ServiceState × List LogEntry) :
    ServiceState × List LogEntry :=
  match v? with
  | some v =>
    let msg := "Configuration updated: skipExisting changed from " ++
      toString p.1.skipExisting ++ " to " ++ toString v
    logBoth ({ p.1 with skipExisting := v }, p.2) "info" msg
  | none => p

/-- The `for (const [key, value] of Object.entries(options))` loop,
restricted to the valid keys (each present key is assigned and logged;
key order cannot affect the result since the keys are distinct). -/
def applyValidOptions (o : ConfigureOptions) (s : ServiceState) :
    ServiceState × List LogEntry :=
  applySkipExistingOpt o.skipExisting
    (applyWorkersOpt o.concurrentWorkers
      (applyPriorityOpt o.priority
        (applyRetryOpt o.retryAttempts
          (applyDelayOpt o.delayBetweenBatches
            (applyBatchSizeOpt o.batchSize (s, []))))))

/-- The warning branch of the same loop, once per unknown key. -/
def warnUnknownKeys (ks : List String) (p : ServiceState × List LogEntry) :
    ServiceState × List LogEntry :=
  ks.foldl (fun q k => logBoth q "warning" ("Invalid configuration option: " ++ k)) p

/-- The validation clamps applied at the end of every successful
`configure` call. -/
def clampConfig (s : ServiceState) : ServiceState :=
  { s with
    batchSize := max 1 (min 1000 s.batchSize),
    delayBetweenBatches := max 0 s.delayBetweenBatches,
    retryAttempts := max 0 (min 10 s.retryAttempts),
    concurrentWorkers := max 1 (min 5 s.concurrentWorkers) }

/-- `configure(options)`: throws when a run is active and not paused;
otherwise assigns each present valid key (with an info log), warns about
each unknown key, clamps the numeric configuration, and logs a final info
entry.  Besides the updated state it returns the list of log entries the
call emitted. -/
def configure (s : ServiceState) (o : ConfigureOptions) :
    ServiceState × List LogEntry × Except String Unit :=
  if s.isRunning && !s.isPaused then
    (s, [], .error "Cannot configure while process is running. Please pause first.")
  else
    let p := warnUnknownKeys o.unknownKeys (applyValidOptions o s)
    let s2 := clampConfig p.1
    let msg := "Configuration validated and applied"
    (addLog s2 "info" msg, p.2 ++ [mkLogEntry s2 "info" msg], .ok ())

/-- The world the run mutates: the service state, the persistent store,
and ghost counters for completion/progress callback firings. -/
structure World where
  service : ServiceState
  store : List Document
  completionSignals : Nat := 0
  progressSignals : Nat := 0

/-- `Document.findByIdAndUpdate(id, embedding)`: set the embedding of the
document with the given id. -/
def updateEmbedding (store : List Document) (id : Nat) (v : List ℚ) :
    List Document :=
  store.map (fun d => if d.id = id then { d with embedding := .arr v } else d)

/-- Apply the store writes recorded in the per-document traces of one
batch, in order. -/
def applyWrites : List Document → List DocTrace → List Document → List Document
  | d :: ds, t :: ts, store =>
    let store1 := match t.write with
      | some v => updateEmbedding store d.id v
      | none => store
    applyWrites ds ts store1
  | _, _, store => store

/-- Threading of `this.lastProcessedId` through one batch: every
successful document sets it to that document id. -/
def lastSuccessId : List Document → List DocTrace → Option Nat → Option Nat
  | d :: ds, t :: ts, acc =>
    lastSuccessId ds ts
      (match t.outcome with | .succeeded _ => some d.id | _ => acc)
  | _, _, acc => acc

/-- The `while (processedDocuments < totalDocuments && isRunning &&
!isStopping)` loop of `processEmbeddings`, in the sequential model (no
pause or stop request arrives during the run, so the pause-poll inner loop
is never entered).  The second argument is the running `skip` offset,
which grows by `batchSize` after every non-empty page.  Batch timing
(`updateTimeEstimates`), the inter-batch delay sleep and the every-10-
batches progress log touch only wall-clock-derived fields and are outside
the model.  The fuel argument bounds the iteration count; since every
processed page increments `processedDocuments` by its length, a fuel of
`totalDocuments + 1` is always sufficient. -/
def embeddingsLoop (embed : Nat → Nat → Except String (List ℚ)) :
    Nat → Nat → World → World
  | 0, _, w => w
  | fuel + 1, skip, w =>
    let s := w.service
    if s.processedDocuments < s.totalDocuments && s.isRunning && !s.isStopping then
      let s := { s with currentBatch := s.currentBatch + 1 }
      let s := addLog s "progress"
        ("Processing batch " ++ toString s.currentBatch ++ "...")
      let docs := fetchBatch w.store s.skipExisting s.batchSize.toNat skip
      if docs.isEmpty then
        { w with service := addLog s "info" "No more documents to process" }
      else
        let c : Counters :=
          { processedDocuments := s.processedDocuments,
            successCount := s.successCount,
            failedDocuments := s.failedDocuments,
            errorCount := s.errorCount }
        let res := processBatch s.retryAttempts.toNat s.skipExisting embed docs c
        let store1 := applyWrites docs res.2 w.store
        let s := { s with
          processedDocuments := res.1.processedDocuments,
          successCount := res.1.successCount,
          failedDocuments := res.1.failedDocuments,
          errorCount := res.1.errorCount,
          lastProcessedId := lastSuccessId docs res.2 s.lastProcessedId }
        let w1 := { w with
          service := s, store := store1,
          progressSignals := w.progressSignals + 1 }
        embeddingsLoop embed fuel (skip + s.batchSize.toNat) w1
    else
      w

/-- `processEmbeddings()`: run the batch loop, then, when the loop exits
without a stop request, flip to completed and fire the completion
callback. -/
def processEmbeddings (embed : Nat → Nat → Except String (List ℚ))
    (fuel : Nat) (w : World) : World :=
  let w1 := embeddingsLoop embed fuel 0 w
  let s := w1.service
  if s.isRunning && !s.isStopping then
    let s := { s with isRunning := false, currentOperation := some "completed" }
    let s := addLog s "success" "All embeddings generated successfully!"
    { w1 with service := s, completionSignals := w1.completionSignals + 1 }
  else
    w1

/-- The prefix of `start()` up to and including the optional
`configure(options)` call (at that point `isRunning` is still false, so
`configure` cannot throw). -/
def startConfigured (o : ConfigureOptions) (s : ServiceState) : ServiceState :=
  let s := addLog s "info" "Starting background embedding generation process..."
  if o.isEmpty then s else (configure s o).1

/-- The counter-and-timer reset block at the top of `start()`. -/
def startReset (now : Nat) (s : ServiceState) : ServiceState :=
  { s with
    isRunning := true, isPaused := false, isStopping := false,
    currentBatch := 0, processedDocuments := 0, failedDocuments := 0,
    successCount := 0, errorCount := 0, startTime := some now,
    pauseTime := none, totalPauseDuration := 0, processingTimes := [],
    lastProcessedId := none, currentOperation := some "initializing" }

/-- The run state after configuration, reset, and the pre-connection log
line of `start()`. -/
def startConnectLogged (o : ConfigureOptions) (now : Nat) (s : ServiceState) :
    ServiceState :=
  addLog (startReset now (startConfigured o s)) "info" "Connecting to MongoDB..."

/-- The safety validation and `totalDocuments` snapshot block of
`start()`: log lines, `currentOperation := "counting_documents"`, the
snapshot count, and the count log. -/
def startSnapshot (store : List Document) (s : ServiceState) : ServiceState :=
  let s := addLog s "info" "Validating data safety..."
  let s := addLog s "info" "Data Safety Validation:"
  let s := { s with currentOperation := some "counting_documents" }
  let s := { s with totalDocuments := countNeedingEmbedding store s.skipExisting }
  addLog s "info"
    ("Found " ++ toString s.totalDocuments ++ " documents that need embeddings")

/-- `start(options)`: throws when already running; otherwise applies the
options, resets all counters and timers, connects to the store and
initialises the embedding backend (each may fail, which the catch block
turns into a logged error, `isRunning := false` and a rethrow), runs the
safety validation, takes the `totalDocuments` snapshot, and either
returns immediately when the snapshot is 0 (firing the completion
callback) or enters the batch loop. -/
def start (connectOk initOk : Bool) (embed : Nat → Nat → Except String (List ℚ))
    (fuel now : Nat) (o : ConfigureOptions) (w : World) :
    World × Except String Unit :=
  if w.service.isRunning then
    (w, .error "Embedding generation is already running")
  else
    let s1 := startConnectLogged o now w.service
    if !connectOk then
      ({ w with service :=
          { (addLog s1 "error" "Failed to start embedding generation") with
            isRunning := false } },
        .error "MongoDB connection failed")
    else
      let s2 := addLog s1 "info" "Initializing embedding model..."
      if !initOk then
        ({ w with service :=
            { (addLog s2 "error" "Failed to start embedding generation") with
              isRunning := false } },
          .error "embedding model initialization failed")
      else
        let s3 := startSnapshot w.store s2
        if s3.totalDocuments = 0 then
          let s4 :=
            { (addLog s3 "success" "All documents already have embeddings!") with
              isRunning := false }
          ({ w with
              service := s4,
              completionSignals := w.completionSignals + 1 }, .ok ())
        else
          let s4 := { s3 with currentOperation := some "processing_embeddings" }
          let s4 := addLog s4 "info"
            ("Starting to process " ++ toString s3.totalDocuments ++
              " documents in batches of " ++ toString s4.batchSize)
          let w1 := processEmbeddings embed fuel { w with service := s4 }
          ({ w1 with
              service := addLog w1.service "success"
                "Background embedding generation completed successfully!" },
            .ok ())

/-- `resume()`: throws unless the run is running and paused; otherwise
accumulates the elapsed pause duration, clears the pause, and re-enters
the batch loop. -/
def resume (embed : Nat → Nat → Except String (List ℚ)) (fuel now : Nat)
    (w : World) : World × Except String Unit :=
  let s := w.service
  if !s.isRunning || !s.isPaused then
    (w, .error "Cannot resume: process is not paused")
  else
    let pauseDuration := now - s.pauseTime.getD 0
    let s := { s with
      totalPauseDuration := s.totalPauseDuration + pauseDuration,
      isPaused := false, pauseTime := none,
      currentOperation := some "processing_embeddings" }
    let s := addLog s "info" "Embedding generation resumed"
    (processEmbeddings embed fuel { w with service := s }, .ok ())


/-- `addCsvToQueue(filePath, fileName, options)`: allocate the next task
id, build the task (the literal `clearExisting || false`,
`generateEmbeddings || true`, `batchSize || 1000` defaults are immediately
overridden for any key actually present, because the source spreads
`...options` last, so a present key keeps its raw value), push it on the
queue, and log.  The returned flag records whether the source would also
fire `startCsvProcessing()` (it does so exactly when processing is not
already active); that asynchronous loop is modelled separately. -/
def addCsvToQueue (filePath fileName : String) (o : CsvOptionsIn)
    (s : ServiceState) : ServiceState × CsvTask × Bool :=
  let taskId := s.csvTaskId + 1
  let task : CsvTask :=
    { id := taskId, filePath := filePath, fileName := fileName,
      status := "queued", totalRecords := 0, processedRecords := 0,
      insertedRecords := 0, failedRecords := 0, progress := 0, error := none,
      options :=
        { clearExisting := o.clearExisting.getD false,
          generateEmbeddings := o.generateEmbeddings.getD true,
          batchSize := o.batchSize.getD 1000 } }
  let s := { s with csvTaskId := taskId, csvQueue := s.csvQueue ++ [task] }
  let s := addLog s "info" ("CSV file added to queue: " ++ fileName)
  (s, task, !s.csvProcessingActive)

/-- The per-task snapshot produced by `getCsvQueueStatus` for each queued
task. -/
structure CsvTaskSnapshot where
  id : Nat
  fileName : String
  status : String
  progress : ℚ
  totalRecords : Nat
  processedRecords : Nat
  insertedRecords : Nat
  failedRecords : Nat
  error : Option String
deriving DecidableEq, Repr

/-- Field projection used by the `csvQueue.map(...)` in
`getCsvQueueStatus`. -/
def snapshotOf (t : CsvTask) : CsvTaskSnapshot :=
  { id := t.id, fileName := t.fileName, status := t.status,
    progress := t.progress, totalRecords := t.totalRecords,
    processedRecords := t.processedRecords,
    insertedRecords := t.insertedRecords, failedRecords := t.failedRecords,
    error := t.error }

/-- The object returned by `getCsvQueueStatus()`. -/
structure CsvQueueStatus where
  active : Bool
  queueLength : Nat
  currentTask : Option CsvTask
  queue : List CsvTaskSnapshot
deriving DecidableEq, Repr

/-- `getCsvQueueStatus()`: a pure read of the queue state. -/
def getCsvQueueStatus (s : ServiceState) : CsvQueueStatus :=
  { active := s.csvProcessingActive,
    queueLength := s.csvQueue.length,
    currentTask := s.currentCsvTask,
    queue := s.csvQueue.map snapshotOf }

/-- `clearCsvQueue()`: empties the pending queue AND resets the
current-task pointer, then logs. -/
def clearCsvQueue (s : ServiceState) : ServiceState :=
  addLog { s with csvQueue := [], currentCsvTask := none } "info"
    "CSV queue cleared"

/-- `stopCsvProcessing()`: clears the processing-active flag and logs. -/
def stopCsvProcessing (s : ServiceState) : ServiceState :=
  addLog { s with csvProcessingActive := false } "info" "CSV processing stopped"

/-- Result of one `Document.insertMany(records, ordered: false)` call, as
seen by `processRecordBatch`: either the promise resolves (all records
inserted, result array has one entry per record), or it rejects with an
error.  With `ordered: false` a rejection can still have inserted a
subset; `actuallyInserted` records the size of that subset, which the
source never inspects. -/
inductive InsertOutcome where
  | resolved : InsertOutcome
  | rejected : Nat → String → InsertOutcome
deriving DecidableEq, Repr

/-- `processRecordBatch(records, task)`: on a resolved insert return
`result.length`; on a rejected insert log a warning, add the WHOLE batch
size to `task.failedRecords`, and return 0. -/
def processRecordBatch (outcome : InsertOutcome) (records : List CsvRecord)
    (t : CsvTask) (s : ServiceState) : Nat × CsvTask × ServiceState :=
  match outcome with
  | .resolved => (records.length, t, s)
  | .rejected _ msg =>
    let s := addLog s "warning"
      ("Batch insert error for task " ++ toString t.id ++ ": " ++ msg)
    (0, { t with failedRecords := t.failedRecords + records.length }, s)

/-- `updateCsvProgress(task)`: when `totalRecords > 0`, set
`progress := min(100, processedRecords / totalRecords * 100)`; otherwise
leave it unchanged. -/
def updateCsvProgress (t : CsvTask) : CsvTask :=
  if 0 < t.totalRecords then
    { t with
      progress := min 100 ((t.processedRecords : ℚ) / (t.totalRecords : ℚ) * 100) }
  else t

/-- One mid-stream batch flush inside the `on("data")` handler: run
`processRecordBatch` on the spliced records, then
`insertedRecords += count`, `processedRecords += options.batchSize`, and
`updateCsvProgress`. -/
def csvBatchStep (outcome : InsertOutcome) (records : List CsvRecord)
    (t : CsvTask) (s : ServiceState) : CsvTask × ServiceState :=
  let r := processRecordBatch outcome records t s
  let t1 := { r.2.1 with
    insertedRecords := r.2.1.insertedRecords + r.1,
    processedRecords := r.2.1.processedRecords + r.2.1.options.batchSize }
  (updateCsvProgress t1, r.2.2)

/-- The tail of the `on("end")` handler after the remaining records are
flushed: set `totalRecords` to the raw row count minus the header row,
mark the task completed and force `progress := 100`. -/
def csvComplete (totalProcessed : Nat) (t : CsvTask) : CsvTask :=
  { t with totalRecords := totalProcessed - 1, status := "completed",
           progress := 100 }

/-- Dot product as accumulated by the single loop of `cosineSimilarity`
(the loop runs over equal-length vectors; `zipWith` agrees with it
there). -/
def dotProduct (vectorA vectorB : List ℝ) : ℝ :=
  (List.zipWith (fun a b => a * b) vectorA vectorB).sum

/-- The `normA`/`normB` accumulators of `cosineSimilarity`: the sum of
squared entries (the squared Euclidean norm, before the final
`Math.sqrt`). -/
def sumSquares (v : List ℝ) : ℝ :=
  (v.map (fun a => a * a)).sum

open Classical in
/-- `cosineSimilarity(vectorA, vectorB)` from `semantic-search.js`,
idealised over the reals: throw on a length mismatch, return 0 when
either accumulated norm is zero, otherwise return
`dotProduct / (Math.sqrt(normA) * Math.sqrt(normB))`. -/
noncomputable def cosineSimilarity (vectorA vectorB : List ℝ) :
    Except String ℝ :=
  if vectorA.length ≠ vectorB.length then
    .error "Vectors must have the same length"
  else
    let dp := dotProduct vectorA vectorB
    let nA := sumSquares vectorA
    let nB := sumSquares vectorB
    if nA = 0 ∨ nB = 0 then .ok 0
    else .ok (dp / (Real.sqrt nA * Real.sqrt nB))

/-!
Theorems for the claims.  Each claim has exactly one theorem; theorems
with hypotheses additionally have a closed witness instantiating them.
-/

/-- C9: `cosineSimilarity` fails with the dimension-mismatch error on
vectors of unequal length; returns exactly 0 when either vector has zero
norm (equivalently, zero sum of squares); and otherwise returns the dot
product divided by the product of the two norms. -/
theorem C9_cosineSimilarity_contract (a b : List ℝ) :
    (a.length ≠ b.length →
      cosineSimilarity a b = .error "Vectors must have the same length") ∧
    (a.length = b.length → sumSquares a = 0 ∨ sumSquares b = 0 →
      cosineSimilarity a b = .ok 0) ∧
    (a.length = b.length → sumSquares a ≠ 0 → sumSquares b ≠ 0 →
      cosineSimilarity a b =
        .ok (dotProduct a b /
          (Real.sqrt (sumSquares a) * Real.sqrt (sumSquares b)))) := by
  refine ⟨fun h => ?_, fun h hz => ?_, fun h ha hb => ?_⟩
  · simp only [cosineSimilarity]
    rw [if_pos h]
  · simp only [cosineSimilarity]
    rw [if_neg (not_not_intro h), if_pos hz]
  · simp only [cosineSimilarity]
    rw [if_neg (not_not_intro h), if_neg (not_or.mpr ⟨ha, hb⟩)]

/-- Witness for C9 at concrete vectors. -/
theorem C9_cosineSimilarity_contract_witness :
    cosineSimilarity [(1 : ℝ)] [1, 2] = .error "Vectors must have the same length" ∧
    cosineSimilarity [(0 : ℝ), 0] [3, 4] = .ok 0 ∧
    cosineSimilarity [(1 : ℝ)] [2] =
      .ok (dotProduct [(1 : ℝ)] [2] /
        (Real.sqrt (sumSquares [(1 : ℝ)]) * Real.sqrt (sumSquares [(2 : ℝ)]))) := by
  refine ⟨(C9_cosineSimilarity_contract [(1 : ℝ)] [1, 2]).1 (by decide), ?_, ?_⟩
  · exact (C9_cosineSimilarity_contract [(0 : ℝ), 0] [3, 4]).2.1 rfl
      (Or.inl (by norm_num [sumSquares]))
  · exact (C9_cosineSimilarity_contract [(1 : ℝ)] [2]).2.2 rfl
      (by norm_num [sumSquares]) (by norm_num [sumSquares])

/-- C3: every illegal control transition is rejected with an error and
leaves the state unchanged: `pause()` when not running or already paused,
`resume()` when not running or not paused, and `start()` while a run is
active (so no counter is reset). -/
theorem C3_illegal_transitions_rejected :
    (∀ (now : Nat) (s : ServiceState), s.isRunning = false ∨ s.isPaused = true →
      pause now s =
        (s, .error "Cannot pause: process is not running or already paused")) ∧
    (∀ (embed : Nat → Nat → Except String (List ℚ)) (fuel now : Nat) (w : World),
      w.service.isRunning = false ∨ w.service.isPaused = false →
      resume embed fuel now w = (w, .error "Cannot resume: process is not paused")) ∧
    (∀ (connectOk initOk : Bool) (embed : Nat → Nat → Except String (List ℚ))
      (fuel now : Nat) (o : ConfigureOptions) (w : World),
      w.service.isRunning = true →
      start connectOk initOk embed fuel now o w =
        (w, .error "Embedding generation is already running")) := by
  refine ⟨fun now s h => ?_, fun embed fuel now w h => ?_,
    fun ck ik embed fuel now o w h => ?_⟩
  · rcases h with h | h <;> simp [pause, h]
  · rcases h with h | h <;> simp [resume, h]
  · simp [start, h]

/-- Witness for C3 at concrete states. -/
theorem C3_illegal_transitions_rejected_witness :
    pause 5 {} = ({}, .error "Cannot pause: process is not running or already paused") ∧
    resume (fun _ _ => .ok []) 3 5 { service := {}, store := [] } =
      ({ service := {}, store := [] }, .error "Cannot resume: process is not paused") ∧
    start true true (fun _ _ => .ok []) 3 5 {} { service := { isRunning := true }, store := [] } =
      ({ service := { isRunning := true }, store := [] },
        .error "Embedding generation is already running") := by
  refine ⟨C3_illegal_transitions_rejected.1 5 {} (Or.inl rfl),
    C3_illegal_transitions_rejected.2.1 (fun _ _ => .ok []) 3 5 _ (Or.inl rfl),
    C3_illegal_transitions_rejected.2.2 true true (fun _ _ => .ok []) 3 5 {} _ rfl⟩

/-- Number of documents that took the skip branch in one batch trace. -/
def countSkipped (ts : List DocTrace) : Nat :=
  ts.countP (fun t => t.outcome.isSkipped)

/-- In every trace the retry loop can produce, the processed increment
equals success increment plus failed increment plus one exactly when the
skip branch fired (the skip branch bumps `processedDocuments` without
bumping `successCount`). -/
theorem docLoop_succ (r : Nat) (se : Bool) (d : Document)
    (embed : Nat → Except String (List ℚ)) (fuel a : Nat) :
    docLoop r se d embed (fuel + 1) a =
      (if se && hasNonEmptyEmbedding d then
        { tries := 0, sleeps := [], warnAttempts := [], errorLogs := 0,
          dProcessed := 1, dSuccess := 0, dFailed := 0, dError := 0,
          write := none, outcome := .skipped }
      else
        match embed a with
        | .ok v =>
          { tries := 1, sleeps := [], warnAttempts := [], errorLogs := 0,
            dProcessed := 1, dSuccess := 1, dFailed := 0, dError := 0,
            write := some v, outcome := .succeeded v }
        | .error _ =>
          if r < a + 1 then
            { tries := 1, sleeps := [], warnAttempts := [a + 1], errorLogs := 1,
              dProcessed := 1, dSuccess := 0, dFailed := 1, dError := 1,
              write := none, outcome := .failed }
          else
            { tries := (docLoop r se d embed fuel (a + 1)).tries + 1,
              sleeps := 1000 * (a + 1) :: (docLoop r se d embed fuel (a + 1)).sleeps,
              warnAttempts := (a + 1) :: (docLoop r se d embed fuel (a + 1)).warnAttempts,
              errorLogs := (docLoop r se d embed fuel (a + 1)).errorLogs,
              dProcessed := (docLoop r se d embed fuel (a + 1)).dProcessed,
              dSuccess := (docLoop r se d embed fuel (a + 1)).dSuccess,
              dFailed := (docLoop r se d embed fuel (a + 1)).dFailed,
              dError := (docLoop r se d embed fuel (a + 1)).dError,
              write := (docLoop r se d embed fuel (a + 1)).write,
              outcome := (docLoop r se d embed fuel (a + 1)).outcome }) := by
  simp only [docLoop]

theorem docLoop_accounting (r : Nat) (se : Bool) (d : Document)
    (embed : Nat → Except String (List ℚ)) (fuel a : Nat) :
    (docLoop r se d embed fuel a).dProcessed =
      (docLoop r se d embed fuel a).dSuccess +
        (docLoop r se d embed fuel a).dFailed +
        (if (docLoop r se d embed fuel a).outcome.isSkipped then 1 else 0) := by
  induction fuel generalizing a with
  | zero => simp [docLoop, DocOutcome.isSkipped]
  | succ fuel ih =>
    rw [docLoop_succ]
    cases hsk : (se && hasNonEmptyEmbedding d) with
    | true => simp [DocOutcome.isSkipped]
    | false =>
      simp only [Bool.false_eq_true, if_false]
      cases hE : embed a with
      | ok v => simp [DocOutcome.isSkipped]
      | error e =>
        simp only []
        by_cases hr : r < a + 1
        · simp [hr, DocOutcome.isSkipped]
        · simpa [hr] using ih (a + 1)

/-- Each batch processes its document list in a single pass: one trace per
document, in order. -/
theorem processBatch_traces (r : Nat) (se : Bool)
    (embed : Nat → Nat → Except String (List ℚ)) :
    ∀ (docs : List Document) (c : Counters),
      (processBatch r se embed docs c).2 =
        docs.map (fun x => processDocument r se (embed x.id) x) := by
  intro docs
  induction docs with
  | nil => intro c; simp [processBatch]
  | cons d ds ih => intro c; simp [processBatch, ih]

/-- C2 counterexample: a document that already carries a non-empty
embedding is skipped, which increments `processedDocuments` but neither
`successCount` nor `failedDocuments`, so the claimed equality fails right
after the batch completes. -/
theorem C2_counterexample :
    (processBatch 3 true (fun _ _ => .error "embed failure")
        [{ id := 1, embedding := .arr [1] }] ⟨0, 0, 0, 0⟩).1.processedDocuments ≠
      (processBatch 3 true (fun _ _ => .error "embed failure")
          [{ id := 1, embedding := .arr [1] }] ⟨0, 0, 0, 0⟩).1.successCount +
        (processBatch 3 true (fun _ _ => .error "embed failure")
            [{ id := 1, embedding := .arr [1] }] ⟨0, 0, 0, 0⟩).1.failedDocuments := by
  decide

/-- C2 (amended): after every batch,
`processed_documents == success_count + failed_count + skipped`, where
`skipped` counts the documents that took the already-embedded skip branch;
the equality claimed by the spec holds exactly on runs where no document
is skipped. -/
theorem C2_amended_counter_accounting (r : Nat) (se : Bool)
    (embed : Nat → Nat → Except String (List ℚ)) (docs : List Document)
    (c : Counters) (k : Nat)
    (h : c.processedDocuments = c.successCount + c.failedDocuments + k) :
    (processBatch r se embed docs c).1.processedDocuments =
      (processBatch r se embed docs c).1.successCount +
        (processBatch r se embed docs c).1.failedDocuments +
        (k + countSkipped (processBatch r se embed docs c).2) := by
  induction docs generalizing c k with
  | nil => simpa [processBatch, countSkipped] using h
  | cons d ds ih =>
    have hacc := docLoop_accounting r se d (embed d.id) (r + 1) 0
    simp only [processBatch]
    have step := ih (applyTrace c (processDocument r se (embed d.id) d))
      (k + (if (processDocument r se (embed d.id) d).outcome.isSkipped then 1 else 0))
      (by
        simp only [applyTrace, processDocument] at *
        omega)
    simp only [countSkipped, List.countP_cons] at step ⊢
    omega

/-- Witness for C2 (amended) on a batch containing one already-embedded
document: processed ends at 1 = 0 + 0 + 1 skipped. -/
theorem C2_amended_counter_accounting_witness :
    (processBatch 3 true (fun _ _ => .error "embed failure")
        [{ id := 1, embedding := .arr [1] }] ⟨0, 0, 0, 0⟩).1.processedDocuments =
      (processBatch 3 true (fun _ _ => .error "embed failure")
          [{ id := 1, embedding := .arr [1] }] ⟨0, 0, 0, 0⟩).1.successCount +
        (processBatch 3 true (fun _ _ => .error "embed failure")
            [{ id := 1, embedding := .arr [1] }] ⟨0, 0, 0, 0⟩).1.failedDocuments +
        (0 + countSkipped (processBatch 3 true (fun _ _ => .error "embed failure")
            [{ id := 1, embedding := .arr [1] }] ⟨0, 0, 0, 0⟩).2) :=
  C2_amended_counter_accounting 3 true (fun _ _ => .error "embed failure")
    [{ id := 1, embedding := .arr [1] }] ⟨0, 0, 0, 0⟩ 0 rfl

/-- C1: the needs-embedding filter with `skip_existing` matches exactly
the documents whose embedding field is absent, null, or an empty array
(so every fetched batch document has no non-empty embedding), and a
document with a non-empty embedding that nevertheless reaches the
per-document procedure takes the skip branch: no embedding call, no store
write, no counter change besides `processedDocuments`. -/
theorem C1_skip_existing_never_overwrites :
    (∀ d : Document, needsEmbeddingFilter true d = true ↔
      d.embedding = .absent ∨ d.embedding = .nullv ∨ d.embedding = .arr []) ∧
    (∀ (store : List Document) (bs sk : Nat) (d : Document),
      d ∈ fetchBatch store true bs sk → hasNonEmptyEmbedding d = false) ∧
    (∀ (r : Nat) (embed : Nat → Except String (List ℚ)) (d : Document),
      hasNonEmptyEmbedding d = true →
      processDocument r true embed d =
        { tries := 0, sleeps := [], warnAttempts := [], errorLogs := 0,
          dProcessed := 1, dSuccess := 0, dFailed := 0, dError := 0,
          write := none, outcome := .skipped }) := by
  refine ⟨fun d => ?_, fun store bs sk d hmem => ?_, fun r embed d h => ?_⟩
  · rcases d with ⟨i, f1, f2, f3, f4, f5, f6, e⟩
    cases e <;> simp [needsEmbeddingFilter, List.length_eq_zero]
  · have hf : d ∈ (store.filter (needsEmbeddingFilter true)) :=
      List.mem_of_mem_drop (List.mem_of_mem_take hmem)
    have hp := (List.mem_filter.mp hf).2
    rcases d with ⟨i, f1, f2, f3, f4, f5, f6, e⟩
    cases e <;> simp_all [needsEmbeddingFilter, hasNonEmptyEmbedding]
  · simp [processDocument, docLoop, h]

/-- Witness for C1: a fetched document has an empty embedding, and an
already-embedded document is skipped without a write. -/
theorem C1_skip_existing_never_overwrites_witness :
    hasNonEmptyEmbedding ({ id := 1 } : Document) = false ∧
    processDocument 3 true (fun _ => .error "e") { id := 2, embedding := .arr [5, 6] } =
      { tries := 0, sleeps := [], warnAttempts := [], errorLogs := 0,
        dProcessed := 1, dSuccess := 0, dFailed := 0, dError := 0,
        write := none, outcome := .skipped } :=
  ⟨C1_skip_existing_never_overwrites.2.1 [{ id := 1 }] 10 0 { id := 1 } (by decide),
    C1_skip_existing_never_overwrites.2.2 3 (fun _ => .error "e")
      { id := 2, embedding := .arr [5, 6] } (by decide)⟩

/-- When the embedding oracle fails at every attempt, the retry loop
entered at attempt `a` with `a + k = r` performs `k + 1` further tries,
sleeps `1000 * n` before retry number `n` for `n = a+1 .. r`, logs a
warning for every attempt number `a+1 .. r+1` and one final error, and
charges the document once to `failedDocuments` and once to
`processedDocuments`. -/
theorem docLoop_all_failures (r : Nat) (se : Bool) (d : Document)
    (embed : Nat → Except String (List ℚ))
    (hskip : (se && hasNonEmptyEmbedding d) = false)
    (hfail : ∀ n, ∃ e, embed n = .error e) :
    ∀ k a, a + k = r →
      docLoop r se d embed (k + 1) a =
        { tries := k + 1,
          sleeps := (List.range' (a + 1) k).map (fun i => 1000 * i),
          warnAttempts := List.range' (a + 1) (k + 1),
          errorLogs := 1, dProcessed := 1, dSuccess := 0, dFailed := 1,
          dError := 1, write := none, outcome := .failed } := by
  intro k
  induction k with
  | zero =>
    intro a ha
    obtain ⟨e, he⟩ := hfail a
    rw [docLoop_succ]
    simp only [hskip, Bool.false_eq_true, if_false, he]
    rw [if_pos (by omega)]
    simp [List.range'_one]
  | succ k ih =>
    intro a ha
    obtain ⟨e, he⟩ := hfail a
    rw [docLoop_succ]
    simp only [hskip, Bool.false_eq_true, if_false, he]
    rw [if_neg (by omega), ih (a + 1) (by omega)]
    simp [List.range'_succ]

/-- C4: a document whose embedding call fails on every try gets exactly
`retry_attempts + 1` tries, a `1000ms * n` sleep before retry `n`
(`n = 1 .. retry_attempts`), a warning per attempt number
`1 .. retry_attempts + 1`, one error log, exactly one increment of
`failedDocuments` and of `processedDocuments`, no store write — and each
batch visits each document exactly once, so the document is not re-queued
within the run. -/
theorem C4_retry_exhaustion (r : Nat) (se : Bool) (d : Document)
    (embed : Nat → Except String (List ℚ))
    (hskip : (se && hasNonEmptyEmbedding d) = false)
    (hfail : ∀ n, ∃ e, embed n = .error e) :
    processDocument r se embed d =
      { tries := r + 1,
        sleeps := (List.range' 1 r).map (fun i => 1000 * i),
        warnAttempts := List.range' 1 (r + 1),
        errorLogs := 1, dProcessed := 1, dSuccess := 0, dFailed := 1,
        dError := 1, write := none, outcome := .failed } ∧
    (∀ (embedB : Nat → Nat → Except String (List ℚ)) (docs : List Document)
      (c : Counters),
      (processBatch r se embedB docs c).2 =
        docs.map (fun x => processDocument r se (embedB x.id) x)) :=
  ⟨docLoop_all_failures r se d embed hskip hfail r 0 (by omega),
    fun embedB docs c => processBatch_traces r se embedB docs c⟩

/-- Witness for C4 with `retryAttempts = 2`: 3 tries, sleeps of 1000ms
and 2000ms, warnings for attempts 1, 2, 3, one failure recorded. -/
theorem C4_retry_exhaustion_witness :
    processDocument 2 true (fun _ => .error "boom") { id := 1 } =
      { tries := 3, sleeps := [1000, 2000], warnAttempts := [1, 2, 3],
        errorLogs := 1, dProcessed := 1, dSuccess := 0, dFailed := 1,
        dError := 1, write := none, outcome := .failed } ∧
    (processBatch 2 true (fun _ _ => .error "boom") [{ id := 1 }] ⟨0, 0, 0, 0⟩).2 =
      [processDocument 2 true (fun _ => .error "boom") { id := 1 }] := by
  have h := C4_retry_exhaustion 2 true { id := 1 } (fun _ => .error "boom")
    (by decide) (fun n => ⟨"boom", rfl⟩)
  constructor
  · simpa using h.1
  · have h2 := h.2 (fun _ _ => .error "boom") ([{ id := 1 }] : List Document)
      (⟨0, 0, 0, 0⟩ : Counters)
    simpa using h2

/-- C6 counterexample: a bulk insert of two records that rejects after
actually inserting one of them is counted as zero inserted and two
failed, not one inserted and one failed as the claim requires. -/
theorem C6_counterexample :
    (processRecordBatch (.rejected 1 "E11000 duplicate key")
        [({} : CsvRecord), {}] { id := 7 } {}).1 = 0 ∧
    (processRecordBatch (.rejected 1 "E11000 duplicate key")
        [({} : CsvRecord), {}] { id := 7 } {}).2.1.failedRecords = 2 ∧
    ¬((processRecordBatch (.rejected 1 "E11000 duplicate key")
          [({} : CsvRecord), {}] { id := 7 } {}).1 = 1 ∧
      (processRecordBatch (.rejected 1 "E11000 duplicate key")
          [({} : CsvRecord), {}] { id := 7 } {}).2.1.failedRecords = 1) := by
  decide

/-- C6 (amended): a failed bulk insert (including a partial success) is
tolerated — `processRecordBatch` returns normally, the surrounding task
keeps its status and continues — but the counters are not reconciled
per row: the call returns 0 (so nothing is added to `insertedRecords`)
and the whole batch length is added to `failedRecords`, regardless of how
many rows were actually inserted. -/
theorem C6_amended_whole_batch_counted_failed (k : Nat) (msg : String)
    (records : List CsvRecord) (t : CsvTask) (s : ServiceState) :
    processRecordBatch (.rejected k msg) records t s =
      (0, { t with failedRecords := t.failedRecords + records.length },
        addLog s "warning"
          ("Batch insert error for task " ++ toString t.id ++ ": " ++ msg)) ∧
    (csvBatchStep (.rejected k msg) records t s).1.status = t.status ∧
    (csvBatchStep (.rejected k msg) records t s).1.insertedRecords =
      t.insertedRecords ∧
    (csvBatchStep (.rejected k msg) records t s).1.failedRecords =
      t.failedRecords + records.length := by
  refine ⟨rfl, ?_, ?_, ?_⟩ <;>
    · simp only [csvBatchStep, processRecordBatch, updateCsvProgress]
      split <;> simp

/-- C7 counterexample: with a task mid-processing, `clearCsvQueue` resets
the current-task pointer, so the queue status stops reporting it. -/
theorem C7_counterexample :
    (getCsvQueueStatus (clearCsvQueue
        { currentCsvTask := some { id := 3, fileName := "a.csv", status := "processing" },
          csvProcessingActive := true })).currentTask ≠
      ({ currentCsvTask := some { id := 3, fileName := "a.csv", status := "processing" },
         csvProcessingActive := true } : ServiceState).currentCsvTask := by
  decide

/-- C7 (amended): `clearCsvQueue` empties the pending queue and does not
interrupt processing — the processing-active flag is untouched and no
task object is mutated — but it also nulls `currentCsvTask`, so the
queue status thereafter reports no current task instead of the in-flight
one. -/
theorem C7_amended_clear_also_resets_pointer (s : ServiceState) :
    (clearCsvQueue s).csvQueue = [] ∧
    (clearCsvQueue s).currentCsvTask = none ∧
    (clearCsvQueue s).csvProcessingActive = s.csvProcessingActive ∧
    (getCsvQueueStatus (clearCsvQueue s)).currentTask = none ∧
    (getCsvQueueStatus (clearCsvQueue s)).active = s.csvProcessingActive ∧
    (getCsvQueueStatus (clearCsvQueue s)).queueLength = 0 := by
  simp [clearCsvQueue, getCsvQueueStatus, addLog]

/-- C10: a newly queued task starts at progress 0; `updateCsvProgress`
caps progress at 100 even when `processedRecords` overshoots
`totalRecords`; completion sets progress to exactly 100; and the queue
status exposes task progress unchanged, so it never exceeds 100 either. -/
theorem C10_progress_never_exceeds_100 :
    (∀ (fp fn : String) (o : CsvOptionsIn) (s : ServiceState),
      (addCsvToQueue fp fn o s).2.1.progress = 0) ∧
    (∀ t : CsvTask, 0 < t.totalRecords → (updateCsvProgress t).progress ≤ 100) ∧
    (∀ t : CsvTask, t.progress ≤ 100 → (updateCsvProgress t).progress ≤ 100) ∧
    (∀ (n : Nat) (t : CsvTask),
      (csvComplete n t).status = "completed" ∧ (csvComplete n t).progress = 100) ∧
    (∀ s : ServiceState, (∀ t ∈ s.csvQueue, t.progress ≤ 100) →
      ∀ snap ∈ (getCsvQueueStatus s).queue, snap.progress ≤ 100) := by
  refine ⟨fun fp fn o s => rfl, fun t ht => ?_, fun t ht => ?_,
    fun n t => ⟨rfl, rfl⟩, fun s hq snap hmem => ?_⟩
  · simp only [updateCsvProgress]
    rw [if_pos ht]
    exact min_le_left _ _
  · by_cases h : 0 < t.totalRecords
    · simp only [updateCsvProgress]
      rw [if_pos h]
      exact min_le_left _ _
    · simp only [updateCsvProgress]
      rw [if_neg h]
      exact ht
  · obtain ⟨t, htmem, rfl⟩ :=
      List.mem_map.mp (by simpa [getCsvQueueStatus] using hmem)
    simpa [snapshotOf] using hq t htmem

/-- Witness for C10: overshoot (5 of 2 records processed) still caps at
100, a mid-range progress is preserved below 100, and the status snapshot
of a half-done task stays below 100. -/
theorem C10_progress_never_exceeds_100_witness :
    (updateCsvProgress { id := 1, totalRecords := 2, processedRecords := 5 }).progress ≤ 100 ∧
    (updateCsvProgress { id := 1, progress := 50 }).progress ≤ 100 ∧
    (snapshotOf { id := 1, progress := 50 }).progress ≤ 100 := by
  refine ⟨C10_progress_never_exceeds_100.2.1 _ (by norm_num),
    C10_progress_never_exceeds_100.2.2.1 _ (by norm_num), ?_⟩
  exact C10_progress_never_exceeds_100.2.2.2.2
    { csvQueue := [{ id := 1, progress := 50 }] }
    (by
      rintro t ht
      rw [List.mem_singleton] at ht
      subst ht
      norm_num)
    (snapshotOf { id := 1, progress := 50 })
    (by simp [getCsvQueueStatus])

/-- Field-level effect of one option-assignment step of `configure`. -/
theorem applyBatchSizeOpt_proj (v? : Option Int) (p : ServiceState × List LogEntry) :
    (applyBatchSizeOpt v? p).1.batchSize = v?.getD p.1.batchSize ∧
      (applyBatchSizeOpt v? p).1.delayBetweenBatches = p.1.delayBetweenBatches ∧
      (applyBatchSizeOpt v? p).1.retryAttempts = p.1.retryAttempts ∧
      (applyBatchSizeOpt v? p).1.priority = p.1.priority ∧
      (applyBatchSizeOpt v? p).1.concurrentWorkers = p.1.concurrentWorkers ∧
      (applyBatchSizeOpt v? p).1.skipExisting = p.1.skipExisting ∧
      (applyBatchSizeOpt v? p).1.currentBatch = p.1.currentBatch ∧
      (applyBatchSizeOpt v? p).1.processedDocuments = p.1.processedDocuments := by
  cases v? <;> exact ⟨rfl, rfl, rfl, rfl, rfl, rfl, rfl, rfl⟩

/-- Field-level effect of one option-assignment step of `configure`. -/
theorem applyDelayOpt_proj (v? : Option Int) (p : ServiceState × List LogEntry) :
    (applyDelayOpt v? p).1.batchSize = p.1.batchSize ∧
      (applyDelayOpt v? p).1.delayBetweenBatches = v?.getD p.1.delayBetweenBatches ∧
      (applyDelayOpt v? p).1.retryAttempts = p.1.retryAttempts ∧
      (applyDelayOpt v? p).1.priority = p.1.priority ∧
      (applyDelayOpt v? p).1.concurrentWorkers = p.1.concurrentWorkers ∧
      (applyDelayOpt v? p).1.skipExisting = p.1.skipExisting ∧
      (applyDelayOpt v? p).1.currentBatch = p.1.currentBatch ∧
      (applyDelayOpt v? p).1.processedDocuments = p.1.processedDocuments := by
  cases v? <;> exact ⟨rfl, rfl, rfl, rfl, rfl, rfl, rfl, rfl⟩

/-- Field-level effect of one option-assignment step of `configure`. -/
theorem applyRetryOpt_proj (v? : Option Int) (p : ServiceState × List LogEntry) :
    (applyRetryOpt v? p).1.batchSize = p.1.batchSize ∧
      (applyRetryOpt v? p).1.delayBetweenBatches = p.1.delayBetweenBatches ∧
      (applyRetryOpt v? p).1.retryAttempts = v?.getD p.1.retryAttempts ∧
      (applyRetryOpt v? p).1.priority = p.1.priority ∧
      (applyRetryOpt v? p).1.concurrentWorkers = p.1.concurrentWorkers ∧
      (applyRetryOpt v? p).1.skipExisting = p.1.skipExisting ∧
      (applyRetryOpt v? p).1.currentBatch = p.1.currentBatch ∧
      (applyRetryOpt v? p).1.processedDocuments = p.1.processedDocuments := by
  cases v? <;> exact ⟨rfl, rfl, rfl, rfl, rfl, rfl, rfl, rfl⟩

/-- Field-level effect of one option-assignment step of `configure`. -/
theorem applyPriorityOpt_proj (v? : Option String) (p : ServiceState × List LogEntry) :
    (applyPriorityOpt v? p).1.batchSize = p.1.batchSize ∧
      (applyPriorityOpt v? p).1.delayBetweenBatches = p.1.delayBetweenBatches ∧
      (applyPriorityOpt v? p).1.retryAttempts = p.1.retryAttempts ∧
      (applyPriorityOpt v? p).1.priority = v?.getD p.1.priority ∧
      (applyPriorityOpt v? p).1.concurrentWorkers = p.1.concurrentWorkers ∧
      (applyPriorityOpt v? p).1.skipExisting = p.1.skipExisting ∧
      (applyPriorityOpt v? p).1.currentBatch = p.1.currentBatch ∧
      (applyPriorityOpt v? p).1.processedDocuments = p.1.processedDocuments := by
  cases v? <;> exact ⟨rfl, rfl, rfl, rfl, rfl, rfl, rfl, rfl⟩

/-- Field-level effect of one option-assignment step of `configure`. -/
theorem applyWorkersOpt_proj (v? : Option Int) (p : ServiceState × List LogEntry) :
    (applyWorkersOpt v? p).1.batchSize = p.1.batchSize ∧
      (applyWorkersOpt v? p).1.delayBetweenBatches = p.1.delayBetweenBatches ∧
      (applyWorkersOpt v? p).1.retryAttempts = p.1.retryAttempts ∧
      (applyWorkersOpt v? p).1.priority = p.1.priority ∧
      (applyWorkersOpt v? p).1.concurrentWorkers = v?.getD p.1.concurrentWorkers ∧
      (applyWorkersOpt v? p).1.skipExisting = p.1.skipExisting ∧
      (applyWorkersOpt v? p).1.currentBatch = p.1.currentBatch ∧
      (applyWorkersOpt v? p).1.processedDocuments = p.1.processedDocuments := by
  cases v? <;> exact ⟨rfl, rfl, rfl, rfl, rfl, rfl, rfl, rfl⟩

/-- Field-level effect of one option-assignment step of `configure`. -/
theorem applySkipExistingOpt_proj (v? : Option Bool) (p : ServiceState × List LogEntry) :
    (applySkipExistingOpt v? p).1.batchSize = p.1.batchSize ∧
      (applySkipExistingOpt v? p).1.delayBetweenBatches = p.1.delayBetweenBatches ∧
      (applySkipExistingOpt v? p).1.retryAttempts = p.1.retryAttempts ∧
      (applySkipExistingOpt v? p).1.priority = p.1.priority ∧
      (applySkipExistingOpt v? p).1.concurrentWorkers = p.1.concurrentWorkers ∧
      (applySkipExistingOpt v? p).1.skipExisting = v?.getD p.1.skipExisting ∧
      (applySkipExistingOpt v? p).1.currentBatch = p.1.currentBatch ∧
      (applySkipExistingOpt v? p).1.processedDocuments = p.1.processedDocuments := by
  cases v? <;> exact ⟨rfl, rfl, rfl, rfl, rfl, rfl, rfl, rfl⟩

/-- Applying the valid option keys sets exactly the present keys (to
their raw, unclamped values) and touches no other field the later stages
read. -/
theorem applyValidOptions_fields (o : ConfigureOptions) (s : ServiceState) :
    (applyValidOptions o s).1.batchSize = o.batchSize.getD s.batchSize ∧
    (applyValidOptions o s).1.delayBetweenBatches =
      o.delayBetweenBatches.getD s.delayBetweenBatches ∧
    (applyValidOptions o s).1.retryAttempts = o.retryAttempts.getD s.retryAttempts ∧
    (applyValidOptions o s).1.priority = o.priority.getD s.priority ∧
    (applyValidOptions o s).1.concurrentWorkers =
      o.concurrentWorkers.getD s.concurrentWorkers ∧
    (applyValidOptions o s).1.skipExisting = o.skipExisting.getD s.skipExisting ∧
    (applyValidOptions o s).1.currentBatch = s.currentBatch ∧
    (applyValidOptions o s).1.processedDocuments = s.processedDocuments := by
  obtain ⟨h1a, h1b, h1c, h1d, h1e, h1f, h1g, h1h⟩ := applyBatchSizeOpt_proj o.batchSize ((s, ([] : List LogEntry)))
  obtain ⟨h2a, h2b, h2c, h2d, h2e, h2f, h2g, h2h⟩ := applyDelayOpt_proj o.delayBetweenBatches (applyBatchSizeOpt o.batchSize ((s, ([] : List LogEntry))))
  obtain ⟨h3a, h3b, h3c, h3d, h3e, h3f, h3g, h3h⟩ := applyRetryOpt_proj o.retryAttempts (applyDelayOpt o.delayBetweenBatches (applyBatchSizeOpt o.batchSize ((s, ([] : List LogEntry)))))
  obtain ⟨h4a, h4b, h4c, h4d, h4e, h4f, h4g, h4h⟩ := applyPriorityOpt_proj o.priority (applyRetryOpt o.retryAttempts (applyDelayOpt o.delayBetweenBatches (applyBatchSizeOpt o.batchSize ((s, ([] : List LogEntry))))))
  obtain ⟨h5a, h5b, h5c, h5d, h5e, h5f, h5g, h5h⟩ := applyWorkersOpt_proj o.concurrentWorkers (applyPriorityOpt o.priority (applyRetryOpt o.retryAttempts (applyDelayOpt o.delayBetweenBatches (applyBatchSizeOpt o.batchSize ((s, ([] : List LogEntry)))))))
  obtain ⟨h6a, h6b, h6c, h6d, h6e, h6f, h6g, h6h⟩ := applySkipExistingOpt_proj o.skipExisting (applyWorkersOpt o.concurrentWorkers (applyPriorityOpt o.priority (applyRetryOpt o.retryAttempts (applyDelayOpt o.delayBetweenBatches (applyBatchSizeOpt o.batchSize ((s, ([] : List LogEntry))))))))
  simp only [applyValidOptions]
  refine ⟨?_, ?_, ?_, ?_, ?_, ?_, ?_, ?_⟩
  · rw [h6a, h5a, h4a, h3a, h2a, h1a]
  · rw [h6b, h5b, h4b, h3b, h2b, h1b]
  · rw [h6c, h5c, h4c, h3c, h2c, h1c]
  · rw [h6d, h5d, h4d, h3d, h2d, h1d]
  · rw [h6e, h5e, h4e, h3e, h2e, h1e]
  · rw [h6f, h5f, h4f, h3f, h2f, h1f]
  · rw [h6g, h5g, h4g, h3g, h2g, h1g]
  · rw [h6h, h5h, h4h, h3h, h2h, h1h]

/-- The unknown-key warning loop emits exactly one warning entry per
unknown key (stamped with the unchanged batch and processed counters) and
changes no configuration field. -/
theorem warnUnknownKeys_spec (ks : List String) :
    ∀ p : ServiceState × List LogEntry,
      ((warnUnknownKeys ks p).1.batchSize = p.1.batchSize ∧
        (warnUnknownKeys ks p).1.delayBetweenBatches = p.1.delayBetweenBatches ∧
        (warnUnknownKeys ks p).1.retryAttempts = p.1.retryAttempts ∧
        (warnUnknownKeys ks p).1.priority = p.1.priority ∧
        (warnUnknownKeys ks p).1.concurrentWorkers = p.1.concurrentWorkers ∧
        (warnUnknownKeys ks p).1.skipExisting = p.1.skipExisting) ∧
      (warnUnknownKeys ks p).2 = p.2 ++ ks.map (fun k =>
        { level := "warning", message := "Invalid configuration option: " ++ k,
          batchNumber := p.1.currentBatch,
          processedCount := p.1.processedDocuments }) := by
  induction ks with
  | nil => intro p; simp [warnUnknownKeys]
  | cons k ks ih =>
    intro p
    have h := ih (logBoth p "warning" ("Invalid configuration option: " ++ k))
    simp only [warnUnknownKeys, List.foldl_cons] at h ⊢
    simp only [logBoth, addLog, mkLogEntry] at h ⊢
    refine ⟨h.1, ?_⟩
    rw [h.2]
    simp

/-- C8: `configure` rejects with an error — and changes nothing — when a
run is active and not paused; otherwise it succeeds, clamps each supplied
numeric option (`batchSize` into [1,1000], delay to nonnegative,
`retryAttempts` into [0,10], `concurrentWorkers` into [1,5]), emits a
warning log entry for every unknown key, and the unknown keys have no
effect on the resulting configuration. -/
theorem C8_configure_validation :
    (∀ (s : ServiceState) (o : ConfigureOptions),
      s.isRunning = true → s.isPaused = false →
      configure s o =
        (s, [], .error "Cannot configure while process is running. Please pause first.")) ∧
    (∀ (s : ServiceState) (o : ConfigureOptions),
      (s.isRunning && !s.isPaused) = false →
      (configure s o).2.2 = .ok () ∧
      (∀ v, o.batchSize = some v → (configure s o).1.batchSize = max 1 (min 1000 v)) ∧
      (∀ v, o.delayBetweenBatches = some v →
        (configure s o).1.delayBetweenBatches = max 0 v) ∧
      (∀ v, o.retryAttempts = some v →
        (configure s o).1.retryAttempts = max 0 (min 10 v)) ∧
      (∀ v, o.concurrentWorkers = some v →
        (configure s o).1.concurrentWorkers = max 1 (min 5 v)) ∧
      (∀ k, k ∈ o.unknownKeys →
        ({ level := "warning", message := "Invalid configuration option: " ++ k,
           batchNumber := s.currentBatch,
           processedCount := s.processedDocuments } : LogEntry)
          ∈ (configure s o).2.1) ∧
      ((configure s o).1.batchSize =
          (configure s { o with unknownKeys := [] }).1.batchSize ∧
        (configure s o).1.delayBetweenBatches =
          (configure s { o with unknownKeys := [] }).1.delayBetweenBatches ∧
        (configure s o).1.retryAttempts =
          (configure s { o with unknownKeys := [] }).1.retryAttempts ∧
        (configure s o).1.concurrentWorkers =
          (configure s { o with unknownKeys := [] }).1.concurrentWorkers ∧
        (configure s o).1.skipExisting =
          (configure s { o with unknownKeys := [] }).1.skipExisting ∧
        (configure s o).1.priority =
          (configure s { o with unknownKeys := [] }).1.priority)) := by
  constructor
  · intro s o h1 h2
    simp [configure, h1, h2]
  · intro s o h
    have hav := applyValidOptions_fields o s
    have hwk := warnUnknownKeys_spec o.unknownKeys (applyValidOptions o s)
    have hnil := warnUnknownKeys_spec ([] : List String) (applyValidOptions o s)
    refine ⟨by simp [configure, h], fun v hv => ?_, fun v hv => ?_, fun v hv => ?_,
      fun v hv => ?_, fun k hk => ?_, ?_⟩
    · simp only [configure, h, Bool.false_eq_true, if_false, addLog, clampConfig]
      rw [hwk.1.1, hav.1, hv, Option.getD_some]
    · simp only [configure, h, Bool.false_eq_true, if_false, addLog, clampConfig]
      rw [hwk.1.2.1, hav.2.1, hv, Option.getD_some]
    · simp only [configure, h, Bool.false_eq_true, if_false, addLog, clampConfig]
      rw [hwk.1.2.2.1, hav.2.2.1, hv, Option.getD_some]
    · simp only [configure, h, Bool.false_eq_true, if_false, addLog, clampConfig]
      rw [hwk.1.2.2.2.2.1, hav.2.2.2.2.1, hv, Option.getD_some]
    · have hb : (applyValidOptions o s).1.currentBatch = s.currentBatch :=
        hav.2.2.2.2.2.2.1
      have hp : (applyValidOptions o s).1.processedDocuments = s.processedDocuments :=
        hav.2.2.2.2.2.2.2
      simp only [configure, h, Bool.false_eq_true, if_false]
      rw [hwk.2]
      refine List.mem_append.mpr (Or.inl (List.mem_append.mpr (Or.inr ?_)))
      exact List.mem_map.mpr ⟨k, hk, by rw [hb, hp]⟩
    · have heq : applyValidOptions { o with unknownKeys := [] } s =
          applyValidOptions o s := rfl
      simp only [configure, h, Bool.false_eq_true, if_false, addLog, clampConfig, heq]
      rw [hwk.1.1, hwk.1.2.1, hwk.1.2.2.1, hwk.1.2.2.2.1, hwk.1.2.2.2.2.1,
        hwk.1.2.2.2.2.2, hnil.1.1, hnil.1.2.1, hnil.1.2.2.1, hnil.1.2.2.2.1,
        hnil.1.2.2.2.2.1, hnil.1.2.2.2.2.2]
      exact ⟨rfl, rfl, rfl, rfl, rfl, rfl⟩

/-- Witness for C8: rejection while running, the two boundary clamps from
the spec, and an unknown-key warning. -/
theorem C8_configure_validation_witness :
    configure { isRunning := true } {} =
      ({ isRunning := true }, [],
        .error "Cannot configure while process is running. Please pause first.") ∧
    (configure {} { batchSize := some 5000 }).1.batchSize = 1000 ∧
    (configure {} { retryAttempts := some (-1) }).1.retryAttempts = 0 ∧
    ({ level := "warning", message := "Invalid configuration option: foo",
       batchNumber := 0, processedCount := 0 } : LogEntry)
      ∈ (configure {} { unknownKeys := ["foo"] }).2.1 := by
  refine ⟨C8_configure_validation.1 { isRunning := true } {} rfl rfl, ?_, ?_, ?_⟩
  · have h := (C8_configure_validation.2 {} { batchSize := some 5000 }
      (by decide)).2.1 5000 rfl
    rw [h]; decide
  · have h := (C8_configure_validation.2 {} { retryAttempts := some (-1) }
      (by decide)).2.2.2.1 (-1) rfl
    rw [h]; decide
  · exact (C8_configure_validation.2 {} { unknownKeys := ["foo"] }
      (by decide)).2.2.2.2.2.1 "foo" (by simp)

/-- `addLog` touches only the log ring. -/
theorem addLog_proj (s : ServiceState) (l m : String) :
    (addLog s l m).isRunning = s.isRunning ∧
    (addLog s l m).isPaused = s.isPaused ∧
    (addLog s l m).processedDocuments = s.processedDocuments ∧
    (addLog s l m).currentBatch = s.currentBatch ∧
    (addLog s l m).totalDocuments = s.totalDocuments ∧
    (addLog s l m).skipExisting = s.skipExisting :=
  ⟨rfl, rfl, rfl, rfl, rfl, rfl⟩

/-- The reset block of `start` zeroes the counters, raises the running
flag, and keeps the configuration. -/
theorem startReset_proj (now : Nat) (s : ServiceState) :
    (startReset now s).isRunning = true ∧
    (startReset now s).processedDocuments = 0 ∧
    (startReset now s).currentBatch = 0 ∧
    (startReset now s).totalDocuments = s.totalDocuments ∧
    (startReset now s).skipExisting = s.skipExisting :=
  ⟨rfl, rfl, rfl, rfl, rfl⟩

/-- The configure-reset-log prefix of `start`: counters zeroed, running,
configuration as left by `startConfigured`. -/
theorem startConnectLogged_proj (o : ConfigureOptions) (now : Nat)
    (s : ServiceState) :
    (startConnectLogged o now s).isRunning = true ∧
    (startConnectLogged o now s).processedDocuments = 0 ∧
    (startConnectLogged o now s).currentBatch = 0 ∧
    (startConnectLogged o now s).skipExisting = (startConfigured o s).skipExisting := by
  obtain ⟨a1, a2, a3, a4, a5, a6⟩ :=
    addLog_proj (startReset now (startConfigured o s)) "info" "Connecting to MongoDB..."
  obtain ⟨r1, r2, r3, r4, r5⟩ := startReset_proj now (startConfigured o s)
  simp only [startConnectLogged]
  exact ⟨by rw [a1, r1], by rw [a3, r2], by rw [a4, r3], by rw [a6, r5]⟩

/-- The snapshot block of `start` writes `totalDocuments` (the
needs-embedding count under the current `skipExisting`) and only log and
operation fields besides. -/
theorem startSnapshot_proj (store : List Document) (s : ServiceState) :
    (startSnapshot store s).totalDocuments =
      countNeedingEmbedding store s.skipExisting ∧
    (startSnapshot store s).processedDocuments = s.processedDocuments ∧
    (startSnapshot store s).currentBatch = s.currentBatch ∧
    (startSnapshot store s).isRunning = s.isRunning ∧
    (startSnapshot store s).skipExisting = s.skipExisting :=
  ⟨rfl, rfl, rfl, rfl, rfl⟩

/-- C5: with `skip_existing` in effect, when the needs-embedding count
taken at run start is 0 (as after a fully successful prior run with no
new documents), `start` succeeds immediately: the run ends (not running,
completion callback fired) with `processedDocuments = 0`, no batch
entered (`currentBatch = 0`), and the store untouched. -/
theorem C5_zero_snapshot_short_circuit
    (embed : Nat → Nat → Except String (List ℚ)) (fuel now : Nat)
    (o : ConfigureOptions) (w : World)
    (hrun : w.service.isRunning = false)
    (hcount : countNeedingEmbedding w.store
      (startConfigured o w.service).skipExisting = 0) :
    (start true true embed fuel now o w).2 = .ok () ∧
    (start true true embed fuel now o w).1.service.isRunning = false ∧
    (start true true embed fuel now o w).1.service.processedDocuments = 0 ∧
    (start true true embed fuel now o w).1.service.currentBatch = 0 ∧
    (start true true embed fuel now o w).1.service.totalDocuments = 0 ∧
    (start true true embed fuel now o w).1.store = w.store ∧
    (start true true embed fuel now o w).1.completionSignals =
      w.completionSignals + 1 := by
  obtain ⟨c1, c2, c3, c4⟩ := startConnectLogged_proj o now w.service
  obtain ⟨a1, a2, a3, a4, a5, a6⟩ :=
    addLog_proj (startConnectLogged o now w.service) "info"
      "Initializing embedding model..."
  obtain ⟨t1, t2, t3, t4, t5⟩ :=
    startSnapshot_proj w.store
      (addLog (startConnectLogged o now w.service) "info"
        "Initializing embedding model...")
  have hsk2 : (addLog (startConnectLogged o now w.service) "info"
      "Initializing embedding model...").skipExisting =
      (startConfigured o w.service).skipExisting := by rw [a6, c4]
  have htot : (startSnapshot w.store
      (addLog (startConnectLogged o now w.service) "info"
        "Initializing embedding model...")).totalDocuments = 0 := by
    rw [t1, hsk2, hcount]
  obtain ⟨f1, f2, f3, f4, f5, f6⟩ :=
    addLog_proj (startSnapshot w.store
      (addLog (startConnectLogged o now w.service) "info"
        "Initializing embedding model...")) "success"
      "All documents already have embeddings!"
  simp only [start, hrun, Bool.false_eq_true, if_false, Bool.not_true]
  rw [if_pos htot]
  refine ⟨rfl, rfl, ?_, ?_, ?_, rfl, rfl⟩
  · rw [f3, t2, a3, c2]
  · rw [f4, t3, a4, c3]
  · rw [f5, htot]

/-- Witness for C5: a store holding one already-embedded document under
default configuration (skip existing) short-circuits start. -/
theorem C5_zero_snapshot_short_circuit_witness :
    (start true true (fun _ _ => .ok []) 5 0 {}
        { service := {}, store := [{ id := 1, embedding := .arr [1] }] }).2 = .ok () ∧
    (start true true (fun _ _ => .ok []) 5 0 {}
        { service := {}, store := [{ id := 1, embedding := .arr [1] }]
          }).1.service.isRunning = false ∧
    (start true true (fun _ _ => .ok []) 5 0 {}
        { service := {}, store := [{ id := 1, embedding := .arr [1] }]
          }).1.service.processedDocuments = 0 ∧
    (start true true (fun _ _ => .ok []) 5 0 {}
        { service := {}, store := [{ id := 1, embedding := .arr [1] }]
          }).1.service.currentBatch = 0 ∧
    (start true true (fun _ _ => .ok []) 5 0 {}
        { service := {}, store := [{ id := 1, embedding := .arr [1] }]
          }).1.service.totalDocuments = 0 ∧
    (start true true (fun _ _ => .ok []) 5 0 {}
        { service := {}, store := [{ id := 1, embedding := .arr [1] }]
          }).1.store = [{ id := 1, embedding := .arr [1] }] ∧
    (start true true (fun _ _ => .ok []) 5 0 {}
        { service := {}, store := [{ id := 1, embedding := .arr [1] }]
          }).1.completionSignals = 0 + 1 :=
  C5_zero_snapshot_short_circuit (fun _ _ => .ok []) 5 0 {}
    { service := {}, store := [{ id := 1, embedding := .arr [1] }] }
    rfl (by decide)

end KishanCall
